import Mathlib

/-!
Verification of the device-communication subsystem of `comm_config.py`
(classes `ESP8266Communicator`, `BluetoothCommunicator`, `DeviceManager`).

Text is modelled as `List Char`, byte streams as `List Nat` (each 0..255).
Emitted GUI signals are modelled by the `Event` type: the Python code emits
strings of the form "[timestamp] [tag] payload\n" on `msgReceived` and a
`(bool, label)` pair on `connStatusChanged`; an `Event.message` records
whether a timestamp was interpolated, the tag as a category
([系统]→system, [错误]→error, [发送]→sent, [ESP8266]/[蓝牙]→device,
[提示]→info) and the payload text.
-/

namespace Waist

/-- ASCII whitespace recognised by Python `str.strip()` (the full Python
definition also covers further Unicode whitespace; all text handled by this
program is in this subset). -/
def pyIsSpace (c : Char) : Bool :=
  c = ' ' || c = '\t' || c = '\n' || c = '\r' || c = '\x0b' || c = '\x0c'

/-- Python `str.strip()`: remove leading and trailing whitespace. -/
def pyStrip (s : List Char) : List Char :=
  ((s.dropWhile pyIsSpace).reverse.dropWhile pyIsSpace).reverse

/-- Python `message.endswith('\n')` followed by `message += '\n'`:
append a newline unless the text already ends with one
(`if not message.endswith('\n'): message += '\n'`). -/
def pyAppendNl (s : List Char) : List Char :=
  if s.getLast? = some '\n' then s else s ++ ['\n']

/-- Decode one UTF-8 sequence at the head of the byte list.  Returns the
code point and how many bytes beyond the first were consumed, or `none`
when the head sequence is invalid (stray continuation byte, bad
continuation, overlong form, surrogate, out of range, or truncated). -/
def utf8DecodeOne : List Nat → Option (Nat × Nat)
  | [] => none
  | b :: rest =>
    if b < 0x80 then some (b, 0)
    else if b < 0xC0 then none
    else if b < 0xE0 then
      match rest with
      | b1 :: _ =>
        if 0x80 ≤ b1 ∧ b1 < 0xC0 then
          let cp := (b - 0xC0) * 0x40 + (b1 - 0x80)
          if cp < 0x80 then none else some (cp, 1)
        else none
      | [] => none
    else if b < 0xF0 then
      match rest with
      | b1 :: b2 :: _ =>
        if (0x80 ≤ b1 ∧ b1 < 0xC0) ∧ (0x80 ≤ b2 ∧ b2 < 0xC0) then
          let cp := (b - 0xE0) * 0x1000 + (b1 - 0x80) * 0x40 + (b2 - 0x80)
          if cp < 0x800 then none
          else if 0xD800 ≤ cp ∧ cp < 0xE000 then none
          else some (cp, 2)
        else none
      | _ => none
    else if b < 0xF8 then
      match rest with
      | b1 :: b2 :: b3 :: _ =>
        if (0x80 ≤ b1 ∧ b1 < 0xC0) ∧ (0x80 ≤ b2 ∧ b2 < 0xC0) ∧
            (0x80 ≤ b3 ∧ b3 < 0xC0) then
          let cp := (b - 0xF0) * 0x40000 + (b1 - 0x80) * 0x1000 +
            (b2 - 0x80) * 0x40 + (b3 - 0x80)
          if cp < 0x10000 then none
          else if cp > 0x10FFFF then none
          else some (cp, 3)
        else none
      | _ => none
    else none

/-- Fuelled worker for `decodeIgnore`; the fuel (an upper bound on the
number of bytes) only makes the recursion structural. -/
def decodeIgnoreFuel : Nat → List Nat → List Char
  | 0, _ => []
  | _, [] => []
  | fuel + 1, b :: rest =>
    match utf8DecodeOne (b :: rest) with
    | some (cp, k) => Char.ofNat cp :: decodeIgnoreFuel fuel (rest.drop k)
    | none => decodeIgnoreFuel fuel rest

/-- Python `bytes.decode('utf-8', errors='ignore')` as used by
`receive_messages`: invalid bytes are dropped and decoding continues;
decoding never fails.  (Dropping one byte at a time is observably equal to
Python's dropping of each maximal invalid subpart, because a continuation
byte is never a valid lead byte.) -/
def decodeIgnore (bs : List Nat) : List Char :=
  decodeIgnoreFuel bs.length bs

/-- Modelled from the spec: a `bytes.decode('utf-8', errors='replace')`
variant in which "invalid byte sequences are replaced" by U+FFFD instead of
being dropped.  This is not in the source; it exists only to compare the
spec's wording with the source's `errors='ignore'`. -/
def decodeReplaceFuel : Nat → List Nat → List Char
  | 0, _ => []
  | _, [] => []
  | fuel + 1, b :: rest =>
    match utf8DecodeOne (b :: rest) with
    | some (cp, k) => Char.ofNat cp :: decodeReplaceFuel fuel (rest.drop k)
    | none => Char.ofNat 0xFFFD :: decodeReplaceFuel fuel rest

/-- Modelled from the spec: entry point of the replacement-decoding model. -/
def decodeReplaceSpec (bs : List Nat) : List Char :=
  decodeReplaceFuel bs.length bs

/-- UTF-8 encoding of one character (Python `str.encode('utf-8')`). -/
def encodeChar (c : Char) : List Nat :=
  let n := c.toNat
  if n < 0x80 then [n]
  else if n < 0x800 then [0xC0 + n / 0x40, 0x80 + n % 0x40]
  else if n < 0x10000 then
    [0xE0 + n / 0x1000, 0x80 + (n / 0x40) % 0x40, 0x80 + n % 0x40]
  else
    [0xF0 + n / 0x40000, 0x80 + (n / 0x1000) % 0x40,
     0x80 + (n / 0x40) % 0x40, 0x80 + n % 0x40]

/-- Python `message.encode('utf-8')`. -/
def encodeUtf8 (s : List Char) : List Nat :=
  (s.map encodeChar).flatten

/-- Python `buffer.split('\n', 1)`: the text before the first newline and
the text after it (the whole text and `[]` when there is no newline; the
loop below only calls it when a newline is present). -/
def pySplitOnce : List Char → List Char × List Char
  | [] => ([], [])
  | c :: cs =>
    if c = '\n' then ([], cs)
    else (c :: (pySplitOnce cs).1, (pySplitOnce cs).2)

/-- Fuelled worker for `drainLines`: the source loop
`while '\n' in buffer: line, buffer = buffer.split('\n', 1)`, collecting
each extracted `line` in order and returning the final `buffer`.  The fuel
(an upper bound on the buffer length) only makes the recursion structural;
each split strictly shortens the buffer. -/
def drainLoopFuel : Nat → List Char → List (List Char) × List Char
  | 0, buffer => ([], buffer)
  | fuel + 1, buffer =>
    if buffer.contains '\n' then
      let p := pySplitOnce buffer
      let r := drainLoopFuel fuel p.2
      (p.1 :: r.1, r.2)
    else ([], buffer)

/-- The receive loop's framing step on one buffer: all complete lines (text
before each newline, in order) and the remaining partial line. -/
def drainLines (buffer : List Char) : List (List Char) × List Char :=
  drainLoopFuel buffer.length buffer

/-- Structural reformulation of `drainLines`, used for the proofs;
`drainLines_eq_struct` below proves both functions equal. -/
def drainStruct : List Char → List (List Char) × List Char
  | [] => ([], [])
  | c :: cs =>
    if c = '\n' then ([] :: (drainStruct cs).1, (drainStruct cs).2)
    else
      match (drainStruct cs).1 with
      | [] => ([], c :: (drainStruct cs).2)
      | l :: ls => ((c :: l) :: ls, (drainStruct cs).2)

/-- Reattach the newline delimiter to each complete line (the bytes the
framing loop consumed from the buffer). -/
def joinLines (ls : List (List Char)) : List Char :=
  (ls.map (fun l => l ++ ['\n'])).flatten

/-- Tag category of an emitted `msgReceived` string. -/
inductive Category
  | system
  | error
  | sent
  | device
  | info
deriving DecidableEq

/-- An emitted Qt signal: `msgReceived` (split into timestamp flag, tag
category and payload, see the file comment) or `connStatusChanged`. -/
inductive Event
  | message (timestamped : Bool) (cat : Category) (text : List Char)
  | statusChanged (connected : Bool) (label : List Char)
deriving DecidableEq

/-- Whether the receive loop keeps polling after a step (`continue`) or
leaves the loop (`break` / falling through). -/
inductive LoopAct
  | cont
  | brk
deriving DecidableEq

/-- Result of one `socket.recv(1024)` call: a timeout exception, received
bytes (empty on EOF), or another exception with message `e`. -/
inductive RecvResult
  | timeout
  | data (bytes : List Nat)
  | err (e : List Char)

/-- Mutable attributes of an `ESP8266Communicator`.  The socket attribute
only tracks whether a socket object is currently held (`some ()`) or is
`None`; `receive_thread` is represented by the receive-loop model below. -/
structure EspState where
  socket : Option Unit
  is_connected : Bool
  ip_address : List Char
  port : Nat
  device_name : List Char
deriving DecidableEq

/-- `ESP8266Communicator.__init__`. -/
def espInit : EspState :=
  { socket := none, is_connected := false, ip_address := [], port := 0,
    device_name := "ESP8266".data }

/-- Mutable attributes of a `BluetoothCommunicator`. -/
structure BtState where
  socket : Option Unit
  is_connected : Bool
  device_address : List Char
  device_name : List Char
deriving DecidableEq

/-- `BluetoothCommunicator.__init__`. -/
def btInit : BtState :=
  { socket := none, is_connected := false, device_address := [],
    device_name := [] }

/-- `ESP8266Communicator.establish_connection(ip_address, port)`.
`exc = none` models `self.socket.connect(...)` succeeding, `exc = some e`
models it raising an exception whose `str` is `e` (attribute assignment and
socket-object creation themselves cannot fail).  Returns the new state, the
emitted events in order, and the Python return value. -/
def esp_establish_connection (st : EspState) (ip : List Char) (port : Nat)
    (exc : Option (List Char)) : EspState × List Event × Bool :=
  let st1 : EspState := { st with ip_address := ip, port := port, socket := some () }
  match exc with
  | none =>
    ({ st1 with is_connected := true },
     [Event.message true Category.system
        ("已连接到 ".data ++ ip ++ [':'] ++ (Nat.repr port).data),
      Event.statusChanged true ("ESP8266: ".data ++ ip)],
     true)
  | some e =>
    ({ st1 with socket := none },
     [Event.message true Category.error ("无法连接到ESP8266: ".data ++ e),
      Event.statusChanged false []],
     false)

/-- `ESP8266Communicator.close_connection()`: close and null the socket if
one is held (close errors swallowed), clear `is_connected`, and emit the
system message and status-changed events (the code emits them on every
call, with no already-disconnected guard). -/
def esp_close_connection (st : EspState) : EspState × List Event :=
  let st1 := match st.socket with
    | some _ => { st with socket := none }
    | none => st
  ({ st1 with is_connected := false },
   [Event.message true Category.system "已断开连接".data,
    Event.statusChanged false []])

/-- `ESP8266Communicator.send_message(message)`.  `exc` models
`self.socket.send(...)`: `none` succeeds, `some e` raises with message `e`.
Returns (new state, events, return value, bytes written to the socket). -/
def esp_send_message (st : EspState) (message : List Char)
    (exc : Option (List Char)) :
    EspState × List Event × Bool × Option (List Nat) :=
  if st.is_connected = false then (st, [], false, none)
  else
    let message := pyAppendNl message
    match exc with
    | none =>
      (st, [Event.message true Category.sent (pyStrip message)], true,
       some (encodeUtf8 message))
    | some e =>
      let c := esp_close_connection st
      (c.1,
       Event.message true Category.error ("发送消息失败: ".data ++ e) :: c.2,
       false, none)

/-- The per-line emission of the receive loop:
`if line.strip(): self.msgReceived.emit(f"[ts] [ESP8266] {line.strip()}\n")`
(identical for the Bluetooth loop, whose tag is `[蓝牙]`; both tags are the
`device` category). -/
def emitLine (l : List Char) : Option Event :=
  if pyStrip l = [] then none
  else some (Event.message true Category.device (pyStrip l))

/-- One iteration of the `while` body of
`ESP8266Communicator.receive_messages`, given the current framing buffer
and the outcome of `recv`: the events emitted, the new buffer, and whether
the loop continues (`socket.timeout` → continue; decoded data empty → break
with no event; data → frame and emit; other exception → error event only if
still connected, then break). -/
def esp_receive_step (st : EspState) (buffer : List Char) :
    RecvResult → List Event × List Char × LoopAct
  | RecvResult.timeout => ([], buffer, LoopAct.cont)
  | RecvResult.err e =>
    (if st.is_connected then
       [Event.message true Category.error ("接收消息失败: ".data ++ e)]
     else [], buffer, LoopAct.brk)
  | RecvResult.data bytes =>
    let data := decodeIgnore bytes
    if data = [] then ([], buffer, LoopAct.brk)
    else
      let d := drainLines (buffer ++ data)
      (d.1.filterMap emitLine, d.2, LoopAct.cont)

/-- The code after the `while` loop of `receive_messages`:
`if self.is_connected: self.close_connection()`. -/
def esp_receive_loop_exit (st : EspState) : EspState × List Event :=
  if st.is_connected then esp_close_connection st else (st, [])

/-- Run the receive loop over a sequence of consecutive `recv` data
results, accumulating events and threading the framing buffer; stops if a
step breaks out of the loop. -/
def esp_run_data (st : EspState) (buffer : List Char) :
    List (List Nat) → List Event × List Char
  | [] => ([], buffer)
  | c :: cs =>
    match esp_receive_step st buffer (RecvResult.data c) with
    | (evs, buf, LoopAct.cont) =>
      let r := esp_run_data st buf cs
      (evs ++ r.1, r.2)
    | (evs, buf, LoopAct.brk) => (evs, buf)

/-- Return value of `ESP8266Communicator.get_connection_info()`. -/
structure EspConnInfo where
  connected : Bool
  device_name : List Char
  ip_address : List Char
  port : Nat
deriving DecidableEq

/-- `ESP8266Communicator.get_connection_info()`. -/
def esp_get_connection_info (st : EspState) : EspConnInfo :=
  { connected := st.is_connected, device_name := st.device_name,
    ip_address := st.ip_address, port := st.port }

/-- The `str` of the timeout exception raised by a read timing out
(only relevant to the Bluetooth loop, which has no timeout handler). -/
def btTimeoutText : List Char := "timed out".data

/-- `BluetoothCommunicator.establish_connection(device_address,
device_name="")`.  `avail` is the module flag `BLUETOOTH_AVAILABLE`; when
it is false the method emits the untimestamped `[提示]` hint and a
status-changed event with label "蓝牙不可用" and returns `False` without
touching any attribute.  Otherwise as for the ESP8266 variant, with
`self.device_name = device_name or device_address`. -/
def bt_establish_connection (avail : Bool) (st : BtState)
    (addr name : List Char) (exc : Option (List Char)) :
    BtState × List Event × Bool :=
  if avail = false then
    (st,
     [Event.message false Category.info "蓝牙功能在Windows上需要安装PyBluez库".data,
      Event.statusChanged false "蓝牙不可用".data],
     false)
  else
    let bn := if name = [] then addr else name
    let st1 : BtState :=
      { st with device_address := addr, device_name := bn, socket := some () }
    match exc with
    | none =>
      ({ st1 with is_connected := true },
       [Event.message true Category.system
          ("已连接到蓝牙设备: ".data ++ bn),
        Event.statusChanged true ("蓝牙: ".data ++ bn)],
       true)
    | some e =>
      ({ st1 with socket := none },
       [Event.message true Category.error ("无法连接到蓝牙设备: ".data ++ e),
        Event.statusChanged false []],
       false)

/-- `BluetoothCommunicator.close_connection()`. -/
def bt_close_connection (st : BtState) : BtState × List Event :=
  let st1 := match st.socket with
    | some _ => { st with socket := none }
    | none => st
  ({ st1 with is_connected := false },
   [Event.message true Category.system "已断开蓝牙连接".data,
    Event.statusChanged false []])

/-- `BluetoothCommunicator.send_message(message)` (same body as the
ESP8266 variant, closing via the Bluetooth close). -/
def bt_send_message (st : BtState) (message : List Char)
    (exc : Option (List Char)) :
    BtState × List Event × Bool × Option (List Nat) :=
  if st.is_connected = false then (st, [], false, none)
  else
    let message := pyAppendNl message
    match exc with
    | none =>
      (st, [Event.message true Category.sent (pyStrip message)], true,
       some (encodeUtf8 message))
    | some e =>
      let c := bt_close_connection st
      (c.1,
       Event.message true Category.error ("发送消息失败: ".data ++ e) :: c.2,
       false, none)

/-- One iteration of the `while` body of
`BluetoothCommunicator.receive_messages`.  Unlike the ESP8266 loop, this
loop has no `except socket.timeout: continue` branch: a read timeout raises
an exception caught by the generic `except Exception` handler, so it is
treated like any other receive error (error event if still connected, then
break). -/
def bt_receive_step (st : BtState) (buffer : List Char) :
    RecvResult → List Event × List Char × LoopAct
  | RecvResult.timeout =>
    (if st.is_connected then
       [Event.message true Category.error ("接收消息失败: ".data ++ btTimeoutText)]
     else [], buffer, LoopAct.brk)
  | RecvResult.err e =>
    (if st.is_connected then
       [Event.message true Category.error ("接收消息失败: ".data ++ e)]
     else [], buffer, LoopAct.brk)
  | RecvResult.data bytes =>
    let data := decodeIgnore bytes
    if data = [] then ([], buffer, LoopAct.brk)
    else
      let d := drainLines (buffer ++ data)
      (d.1.filterMap emitLine, d.2, LoopAct.cont)

/-- The code after the `while` loop of the Bluetooth `receive_messages`. -/
def bt_receive_loop_exit (st : BtState) : BtState × List Event :=
  if st.is_connected then bt_close_connection st else (st, [])

/-- Return value of `BluetoothCommunicator.get_connection_info()`. -/
structure BtConnInfo where
  connected : Bool
  device_name : List Char
  device_address : List Char
deriving DecidableEq

/-- `BluetoothCommunicator.get_connection_info()`. -/
def bt_get_connection_info (st : BtState) : BtConnInfo :=
  { connected := st.is_connected, device_name := st.device_name,
    device_address := st.device_address }

/-- The two controllers held by a `DeviceManager`. -/
structure DMState where
  esp : EspState
  bt : BtState
deriving DecidableEq

/-- Return value of `DeviceManager.get_current_device_info()`. -/
structure DeviceView where
  ty : List Char
  name : List Char
  connected : Bool
deriving DecidableEq

/-- `DeviceManager.get_current_device_info()`. -/
def dm_get_current_device_info (dm : DMState) : DeviceView :=
  if dm.esp.is_connected then
    { ty := "ESP8266".data, name := "ESP8266: ".data ++ dm.esp.ip_address,
      connected := true }
  else if dm.bt.is_connected then
    { ty := "Bluetooth".data, name := "蓝牙: ".data ++ dm.bt.device_name,
      connected := true }
  else
    { ty := [], name := "未连接".data, connected := false }

/-- `DeviceManager.send_message(message)`: route to the ESP8266 controller
if it is connected, else to the Bluetooth controller if it is connected,
else return `False`.  `eexc`/`bexc` model the respective socket sends.
Returns (new state, events, return value, bytes written to the ESP8266
socket, bytes written to the Bluetooth socket). -/
def dm_send_message (dm : DMState) (message : List Char)
    (eexc bexc : Option (List Char)) :
    DMState × List Event × Bool × Option (List Nat) × Option (List Nat) :=
  if dm.esp.is_connected then
    let r := esp_send_message dm.esp message eexc
    ({ dm with esp := r.1 }, r.2.1, r.2.2.1, r.2.2.2, none)
  else if dm.bt.is_connected then
    let r := bt_send_message dm.bt message bexc
    ({ dm with bt := r.1 }, r.2.1, r.2.2.1, none, r.2.2.2)
  else (dm, [], false, none, none)

/-- `DeviceManager.disconnect_all()`. -/
def dm_disconnect_all (dm : DMState) : DMState × List Event :=
  let e := esp_close_connection dm.esp
  let b := bt_close_connection dm.bt
  ({ esp := e.1, bt := b.1 }, e.2 ++ b.2)

/-- Public operations of an `ESP8266Communicator`, for stating the
socket/state invariant. -/
inductive EspOp
  | establish (ip : List Char) (port : Nat) (exc : Option (List Char))
  | close
  | send (message : List Char) (exc : Option (List Char))
  | loopExit

/-- State reached after running one public ESP8266 operation. -/
def esp_apply (op : EspOp) (st : EspState) : EspState :=
  match op with
  | EspOp.establish ip port exc => (esp_establish_connection st ip port exc).1
  | EspOp.close => (esp_close_connection st).1
  | EspOp.send m exc => (esp_send_message st m exc).1
  | EspOp.loopExit => (esp_receive_loop_exit st).1

/-- Call-validity discipline of the spec: `connect` is valid only from
Disconnected; the other operations are valid from any state. -/
def esp_valid (op : EspOp) (st : EspState) : Prop :=
  match op with
  | EspOp.establish _ _ _ => st.is_connected = false
  | _ => True

/-- Public operations of a `BluetoothCommunicator`. -/
inductive BtOp
  | establish (avail : Bool) (addr name : List Char) (exc : Option (List Char))
  | close
  | send (message : List Char) (exc : Option (List Char))
  | loopExit

/-- State reached after running one public Bluetooth operation. -/
def bt_apply (op : BtOp) (st : BtState) : BtState :=
  match op with
  | BtOp.establish avail addr name exc =>
    (bt_establish_connection avail st addr name exc).1
  | BtOp.close => (bt_close_connection st).1
  | BtOp.send m exc => (bt_send_message st m exc).1
  | BtOp.loopExit => (bt_receive_loop_exit st).1

/-- Call-validity discipline of the spec for the Bluetooth controller. -/
def bt_valid (op : BtOp) (st : BtState) : Prop :=
  match op with
  | BtOp.establish _ _ _ _ => st.is_connected = false
  | _ => True

/-- The claimed invariant: a socket object is held iff the controller is
connected. -/
def espInv (st : EspState) : Prop := st.socket.isSome = st.is_connected

/-- The claimed invariant for the Bluetooth controller. -/
def btInv (st : BtState) : Prop := st.socket.isSome = st.is_connected

/-- A concrete connected ESP8266 state, used in witnesses. -/
def espConn : EspState :=
  { socket := some (), is_connected := true, ip_address := "192.168.4.1".data,
    port := 8080, device_name := "ESP8266".data }

/-- A concrete connected Bluetooth state, used in witnesses. -/
def btConn : BtState :=
  { socket := some (), is_connected := true,
    device_address := "00:11:22:33:44:55".data, device_name := "HC-05".data }

theorem joinLines_nil : joinLines [] = [] := rfl

theorem joinLines_cons (l : List Char) (ls : List (List Char)) :
    joinLines (l :: ls) = l ++ '\n' :: joinLines ls := by
  simp [joinLines]

theorem drainStruct_noNl (s : List Char) : '\n' ∉ (drainStruct s).2 := by
  induction s with
  | nil => simp [drainStruct]
  | cons c cs ih =>
    by_cases hc : c = '\n'
    · simpa [drainStruct, hc] using ih
    · cases h1 : (drainStruct cs).1 with
      | nil =>
        simp only [drainStruct, hc, if_neg hc, h1]
        intro hmem
        rcases List.mem_cons.mp hmem with h | h
        · exact hc h.symm
        · exact ih h
      | cons l ls => simpa [drainStruct, hc, h1] using ih

theorem drainStruct_recompose (s : List Char) :
    joinLines (drainStruct s).1 ++ (drainStruct s).2 = s := by
  induction s with
  | nil => simp [drainStruct, joinLines]
  | cons c cs ih =>
    by_cases hc : c = '\n'
    · subst hc
      simp only [drainStruct, if_pos rfl, joinLines_cons, List.nil_append,
        List.cons_append]
      exact congrArg (List.cons '\n') ih
    · cases h1 : (drainStruct cs).1 with
      | nil =>
        simp only [drainStruct, if_neg hc, h1, joinLines_nil, List.nil_append]
        rw [h1, joinLines_nil, List.nil_append] at ih
        simp [ih]
      | cons l ls =>
        simp only [drainStruct, if_neg hc, h1, joinLines_cons]
        rw [h1, joinLines_cons] at ih
        simpa using ih

theorem drainStruct_of_noNl (s : List Char) (h : '\n' ∉ s) :
    drainStruct s = ([], s) := by
  induction s with
  | nil => rfl
  | cons c cs ih =>
    have hc : ¬(c = '\n') := fun hq => h (hq ▸ List.mem_cons_self c cs)
    have hcs : '\n' ∉ cs := fun hq => h (List.mem_cons_of_mem c hq)
    simp [drainStruct, hc, ih hcs]

theorem drainStruct_line (a rest : List Char) (h : '\n' ∉ a) :
    drainStruct (a ++ '\n' :: rest) =
      (a :: (drainStruct rest).1, (drainStruct rest).2) := by
  induction a with
  | nil => simp [drainStruct]
  | cons c a' ih =>
    have hc : ¬(c = '\n') := fun hq => h (hq ▸ List.mem_cons_self c a')
    have ha' : '\n' ∉ a' := fun hq => h (List.mem_cons_of_mem c hq)
    simp [drainStruct, hc, ih ha']

theorem pySplitOnce_decomp (s : List Char) (h : s.contains '\n' = true) :
    s = (pySplitOnce s).1 ++ '\n' :: (pySplitOnce s).2 ∧
      '\n' ∉ (pySplitOnce s).1 := by
  induction s with
  | nil => simp at h
  | cons c cs ih =>
    by_cases hc : c = '\n'
    · subst hc
      simp [pySplitOnce]
    · have hmem : '\n' ∈ c :: cs := List.elem_iff.mp h
      have hcs : cs.contains '\n' = true := by
        rcases List.mem_cons.mp hmem with h1 | h1
        · exact absurd h1.symm hc
        · exact List.elem_iff.mpr h1
      obtain ⟨ihd, ihm⟩ := ih hcs
      constructor
      · simp only [pySplitOnce, if_neg hc]
        exact congrArg (fun t => c :: t) ihd
      · simp only [pySplitOnce, if_neg hc]
        intro hq
        rcases List.mem_cons.mp hq with h1 | h1
        · exact hc h1.symm
        · exact ihm h1

theorem pySplitOnce_len (s : List Char) (h : s.contains '\n' = true) :
    (pySplitOnce s).2.length < s.length := by
  have hd := (pySplitOnce_decomp s h).1
  have := congrArg List.length hd
  simp at this
  omega

theorem drainLoopFuel_eq_struct (fuel : Nat) (s : List Char)
    (h : s.length ≤ fuel) : drainLoopFuel fuel s = drainStruct s := by
  induction fuel generalizing s with
  | zero =>
    have : s = [] := List.length_eq_zero.mp (Nat.le_zero.mp h)
    subst this
    rfl
  | succ n ih =>
    by_cases hc : s.contains '\n' = true
    · have hlen : (pySplitOnce s).2.length ≤ n := by
        have := pySplitOnce_len s hc
        omega
      obtain ⟨hd, hm⟩ := pySplitOnce_decomp s hc
      have hms : '\n' ∈ s := List.elem_iff.mp hc
      calc drainLoopFuel (n + 1) s
          = ((pySplitOnce s).1 :: (drainLoopFuel n (pySplitOnce s).2).1,
             (drainLoopFuel n (pySplitOnce s).2).2) := by
            simp [drainLoopFuel, hc, hms]
        _ = ((pySplitOnce s).1 :: (drainStruct (pySplitOnce s).2).1,
             (drainStruct (pySplitOnce s).2).2) := by rw [ih _ hlen]
        _ = drainStruct s := by
            conv_rhs => rw [hd]
            rw [drainStruct_line _ _ hm]
    · have hnm : '\n' ∉ s := fun hq => hc (List.elem_iff.mpr hq)
      simp [drainLoopFuel, hc, hnm, drainStruct_of_noNl s hnm]

theorem drainLines_eq_struct (s : List Char) : drainLines s = drainStruct s :=
  drainLoopFuel_eq_struct s.length s le_rfl

theorem decodeIgnoreFuel_ascii (fuel : Nat) : ∀ bs : List Nat,
    bs.length ≤ fuel → (∀ b ∈ bs, b < 128) →
    decodeIgnoreFuel fuel bs = bs.map Char.ofNat := by
  induction fuel with
  | zero =>
    intro bs hf _
    have : bs = [] := List.length_eq_zero.mp (Nat.le_zero.mp hf)
    subst this
    rfl
  | succ n ih =>
    intro bs hf h
    cases bs with
    | nil => rfl
    | cons b rest =>
      have hb : b < 128 := h b (List.mem_cons_self b rest)
      have hr : ∀ x ∈ rest, x < 128 := fun x hx => h x (List.mem_cons_of_mem b hx)
      have hl : rest.length ≤ n := by
        simp only [List.length_cons] at hf
        omega
      simp [decodeIgnoreFuel, utf8DecodeOne, hb, ih rest hl hr]

theorem decodeIgnore_ascii (bs : List Nat) (h : ∀ b ∈ bs, b < 128) :
    decodeIgnore bs = bs.map Char.ofNat :=
  decodeIgnoreFuel_ascii bs.length bs le_rfl h

theorem map_ofNat_toNat (s : List Char) : (s.map Char.toNat).map Char.ofNat = s := by
  induction s with
  | nil => rfl
  | cons c cs ih => simp [Char.ofNat_toNat, ih]

theorem pyStrip_append_nl (s : List Char) : pyStrip (s ++ ['\n']) = pyStrip s := by
  unfold pyStrip
  rw [List.dropWhile_append]
  cases he : (s.dropWhile pyIsSpace).isEmpty with
  | true =>
    have hnil : s.dropWhile pyIsSpace = [] := by
      cases hq : s.dropWhile pyIsSpace with
      | nil => rfl
      | cons x xs => rw [hq] at he; simp at he
    simp [hnil, List.dropWhile, pyIsSpace]
  | false =>
    simp only [he, Bool.false_eq_true, if_false, List.reverse_append,
      List.reverse_cons, List.reverse_nil, List.nil_append,
      List.singleton_append, List.dropWhile]
    have : pyIsSpace '\n' = true := by decide
    rw [this]

theorem pyStrip_pyAppendNl (s : List Char) :
    pyStrip (pyAppendNl s) = pyStrip s := by
  unfold pyAppendNl
  by_cases h : s.getLast? = some '\n'
  · simp [h]
  · simp [h, pyStrip_append_nl]

theorem drainStruct_append (a b : List Char) :
    drainStruct (a ++ b) =
      ((drainStruct a).1 ++ (drainStruct ((drainStruct a).2 ++ b)).1,
       (drainStruct ((drainStruct a).2 ++ b)).2) := by
  induction a generalizing b with
  | nil => simp [drainStruct]
  | cons c a' ih =>
    by_cases hc : c = '\n'
    · subst hc
      simp [drainStruct, ih]
    · cases h1 : (drainStruct a').1 with
      | cons l ls =>
        have hne : (drainStruct (a' ++ b)).1 =
            l :: (ls ++ (drainStruct ((drainStruct a').2 ++ b)).1) := by
          rw [ih, h1]
          rfl
        have hsnd : (drainStruct (a' ++ b)).2 =
            (drainStruct ((drainStruct a').2 ++ b)).2 := by
          rw [ih]
        simp [drainStruct, hc, h1, hne, hsnd]
      | nil =>
        have hfst : (drainStruct (a' ++ b)).1 =
            (drainStruct ((drainStruct a').2 ++ b)).1 := by
          rw [ih, h1]
          rfl
        have hsnd : (drainStruct (a' ++ b)).2 =
            (drainStruct ((drainStruct a').2 ++ b)).2 := by
          rw [ih]
        simp [drainStruct, hc, h1, hfst, hsnd]

theorem esp_run_data_frames (st : EspState) (chunks : List (List Nat)) :
    ∀ buffer : List Char, '\n' ∉ buffer →
    (∀ c ∈ chunks, decodeIgnore c ≠ []) →
    esp_run_data st buffer chunks =
      ((drainStruct (buffer ++ (chunks.map decodeIgnore).flatten)).1.filterMap
         emitLine,
       (drainStruct (buffer ++ (chunks.map decodeIgnore).flatten)).2) := by
  induction chunks with
  | nil =>
    intro buffer hb _
    simp [esp_run_data, drainStruct_of_noNl buffer hb]
  | cons c cs ih =>
    intro buffer hb hne
    have hc : decodeIgnore c ≠ [] := hne c (List.mem_cons_self c cs)
    have hcs : ∀ x ∈ cs, decodeIgnore x ≠ [] :=
      fun x hx => hne x (List.mem_cons_of_mem c hx)
    have hstep : esp_receive_step st buffer (RecvResult.data c) =
        ((drainLines (buffer ++ decodeIgnore c)).1.filterMap emitLine,
         (drainLines (buffer ++ decodeIgnore c)).2, LoopAct.cont) := by
      simp [esp_receive_step, hc]
    have hb2 : '\n' ∉ (drainStruct (buffer ++ decodeIgnore c)).2 :=
      drainStruct_noNl _
    have key := drainStruct_append (buffer ++ decodeIgnore c)
      ((cs.map decodeIgnore).flatten)
    simp only [esp_run_data, hstep, drainLines_eq_struct, ih _ hb2 hcs,
      List.map_cons, List.flatten_cons, ← List.append_assoc, key,
      List.filterMap_append]

/-- Claim C1, counterexample: a second `close_connection` immediately after
a first one re-emits the system message and the status-changed event (the
code has no already-disconnected guard), contradicting "the redundant
second call emits no additional status-changed event and no additional
message event". -/
theorem close_second_call_emits_again :
    (esp_close_connection (esp_close_connection espInit).1).2 ≠ []
  ∧ (esp_close_connection (esp_close_connection espInit).1).2 =
      [Event.message true Category.system "已断开连接".data,
       Event.statusChanged false []]
  ∧ (bt_close_connection (bt_close_connection btInit).1).2 =
      [Event.message true Category.system "已断开蓝牙连接".data,
       Event.statusChanged false []] := by
  decide

/-- Claim C1 (amended): for both controllers, `close_connection` always
leaves the state Disconnected (`is_connected` false, socket null) and a
second call leaves that state unchanged; but every call, including a
redundant one, emits the system message event and the
status-changed(false) event again. -/
theorem close_idempotent_on_state (e : EspState) (b : BtState) :
    (esp_close_connection e).1.is_connected = false
  ∧ (esp_close_connection e).1.socket = none
  ∧ (esp_close_connection (esp_close_connection e).1).1 = (esp_close_connection e).1
  ∧ (esp_close_connection e).2 =
      [Event.message true Category.system "已断开连接".data,
       Event.statusChanged false []]
  ∧ (bt_close_connection b).1.is_connected = false
  ∧ (bt_close_connection b).1.socket = none
  ∧ (bt_close_connection (bt_close_connection b).1).1 = (bt_close_connection b).1
  ∧ (bt_close_connection b).2 =
      [Event.message true Category.system "已断开蓝牙连接".data,
       Event.statusChanged false []] := by
  cases h1 : e.socket <;> cases h2 : b.socket <;>
    simp [esp_close_connection, bt_close_connection, h1, h2]

/-- Claim C2: for every split of the byte sequence "A\nB\nC\n" into
nonempty chunks fed sequentially to the receive loop, the emitted events
are exactly the device lines "A", "B", "C" in order with an empty final
buffer; moreover for any buffer content the framing loop consumes exactly
the bytes up to the last seen delimiter and retains the rest. -/
theorem framing_chunk_invariance (st : EspState) (chunks : List (List Nat))
    (hne : ∀ c ∈ chunks, c ≠ [])
    (hascii : ∀ c ∈ chunks, ∀ b ∈ c, b < 128)
    (hjoin : chunks.flatten = "A\nB\nC\n".data.map Char.toNat) :
    esp_run_data st [] chunks =
      ([Event.message true Category.device ['A'],
        Event.message true Category.device ['B'],
        Event.message true Category.device ['C']], [])
  ∧ ∀ s : List Char,
      joinLines (drainLines s).1 ++ (drainLines s).2 = s ∧
        '\n' ∉ (drainLines s).2 := by
  constructor
  · have hdne : ∀ c ∈ chunks, decodeIgnore c ≠ [] := by
      intro c hcmem
      rw [decodeIgnore_ascii c (hascii c hcmem)]
      simpa using hne c hcmem
    have hrun := esp_run_data_frames st chunks [] (by simp) hdne
    have hmapeq : chunks.map decodeIgnore = chunks.map (List.map Char.ofNat) :=
      List.map_congr_left fun c hcmem => decodeIgnore_ascii c (hascii c hcmem)
    have hdec : (chunks.map decodeIgnore).flatten = "A\nB\nC\n".data := by
      rw [hmapeq, ← List.map_flatten, hjoin, map_ofNat_toNat]
    rw [hrun, hdec]
    decide
  · intro s
    rw [drainLines_eq_struct]
    exact ⟨drainStruct_recompose s, drainStruct_noNl s⟩

/-- Claim C2, witness at the chunk split ["A", "\nB\n", "C\n"]. -/
theorem framing_chunk_invariance_witness :
    esp_run_data espConn [] [[65], [10, 66, 10], [67, 10]] =
      ([Event.message true Category.device ['A'],
        Event.message true Category.device ['B'],
        Event.message true Category.device ['C']], [])
  ∧ ∀ s : List Char,
      joinLines (drainLines s).1 ++ (drainLines s).2 = s ∧
        '\n' ∉ (drainLines s).2 :=
  framing_chunk_invariance espConn [[65], [10, 66, 10], [67, 10]]
    (by decide) (by decide) (by decide)

/-- Claim C3, counterexample: while Connected, an EOF (empty read) makes
the ESP8266 loop break with no event at all — no Error event is emitted,
contradicting "on EOF ... it emits an Error event ... if the state was
still Connected"; and the Bluetooth loop has no timeout handler, so a read
timeout does not continue polling but emits an error and breaks. -/
theorem eof_and_bt_timeout_step_shape :
    esp_receive_step espConn [] (RecvResult.data []) = ([], [], LoopAct.brk)
  ∧ bt_receive_step btConn [] RecvResult.timeout =
      ([Event.message true Category.error
          ("接收消息失败: ".data ++ btTimeoutText)], [], LoopAct.brk) := by
  decide

/-- Claim C3 (amended): while Connected, the ESP8266 loop continues on a
read timeout, while the Bluetooth loop treats a timeout like any other
exception (Error event, then break); on EOF (empty decoded read) both
controllers break with no event; a non-timeout error emits an Error event
only if still Connected, then breaks; after the loop, internal close runs
iff the state is still Connected; on data the step emits the framed,
stripped, nonempty lines as Device events and continues. -/
theorem receive_step_case_behavior (st : EspState) (bst : BtState)
    (buf : List Char) (h1 : st.is_connected = true)
    (h2 : bst.is_connected = true) :
    esp_receive_step st buf RecvResult.timeout = ([], buf, LoopAct.cont)
  ∧ (∀ e, esp_receive_step st buf (RecvResult.err e) =
      ([Event.message true Category.error ("接收消息失败: ".data ++ e)],
       buf, LoopAct.brk))
  ∧ esp_receive_step st buf (RecvResult.data []) = ([], buf, LoopAct.brk)
  ∧ (∀ st2 : EspState, st2.is_connected = false →
      ∀ e, esp_receive_step st2 buf (RecvResult.err e) = ([], buf, LoopAct.brk))
  ∧ bt_receive_step bst buf RecvResult.timeout =
      ([Event.message true Category.error
          ("接收消息失败: ".data ++ btTimeoutText)], buf, LoopAct.brk)
  ∧ (∀ e, bt_receive_step bst buf (RecvResult.err e) =
      ([Event.message true Category.error ("接收消息失败: ".data ++ e)],
       buf, LoopAct.brk))
  ∧ esp_receive_loop_exit st = esp_close_connection st
  ∧ bt_receive_loop_exit bst = bt_close_connection bst
  ∧ (∀ st3 : EspState, st3.is_connected = false →
      esp_receive_loop_exit st3 = (st3, []))
  ∧ (∀ bytes, decodeIgnore bytes ≠ [] →
      esp_receive_step st buf (RecvResult.data bytes) =
        ((drainLines (buf ++ decodeIgnore bytes)).1.filterMap emitLine,
         (drainLines (buf ++ decodeIgnore bytes)).2, LoopAct.cont)) := by
  refine ⟨?_, ?_, ?_, ?_, ?_, ?_, ?_, ?_, ?_, ?_⟩
  · simp [esp_receive_step]
  · intro e
    simp [esp_receive_step, h1]
  · simp [esp_receive_step, decodeIgnore, decodeIgnoreFuel]
  · intro st2 hst2 e
    simp [esp_receive_step, hst2]
  · simp [bt_receive_step, h2]
  · intro e
    simp [bt_receive_step, h2]
  · simp [esp_receive_loop_exit, h1]
  · simp [bt_receive_loop_exit, h2]
  · intro st3 hst3
    simp [esp_receive_loop_exit, hst3]
  · intro bytes hb
    simp [esp_receive_step, hb]

/-- Claim C3, witness: the timeout case at a concrete connected state. -/
theorem receive_step_case_behavior_witness :
    esp_receive_step espConn [] RecvResult.timeout = ([], [], LoopAct.cont) :=
  (receive_step_case_behavior espConn btConn [] rfl rfl).1

/-- Claim C4, counterexample: the Bluetooth capability-unavailable connect
failure emits an untimestamped informational message (tag [提示], not an
Error with a timestamp) and a status-changed event whose label is
"蓝牙不可用", not empty — contradicting the claimed event shape for that
case. -/
theorem bt_unavailable_event_shape :
    bt_establish_connection false btInit "Y".data [] none =
      (btInit,
       [Event.message false Category.info
          "蓝牙功能在Windows上需要安装PyBluez库".data,
        Event.statusChanged false "蓝牙不可用".data],
       false)
  ∧ "蓝牙不可用".data ≠ ([] : List Char)
  ∧ Category.info ≠ Category.error := by
  decide

/-- Claim C4 (amended): on a connect failure other than
capability-unavailable, the state stays Disconnected, the socket is
discarded, the call returns failure, and exactly one timestamped Error
message event plus one status-changed(false, "") event are emitted; the
Bluetooth capability-unavailable failure instead leaves the state
untouched and emits one untimestamped informational message plus one
status-changed event with label "蓝牙不可用". -/
theorem connect_failure_event_shape (est : EspState) (bst : BtState)
    (ip addr name e : List Char) (port : Nat)
    (h1 : est.is_connected = false) (h2 : bst.is_connected = false) :
    (esp_establish_connection est ip port (some e)).1.is_connected = false
  ∧ (esp_establish_connection est ip port (some e)).1.socket = none
  ∧ (esp_establish_connection est ip port (some e)).2.1 =
      [Event.message true Category.error ("无法连接到ESP8266: ".data ++ e),
       Event.statusChanged false []]
  ∧ (esp_establish_connection est ip port (some e)).2.2 = false
  ∧ (bt_establish_connection true bst addr name (some e)).1.is_connected = false
  ∧ (bt_establish_connection true bst addr name (some e)).1.socket = none
  ∧ (bt_establish_connection true bst addr name (some e)).2.1 =
      [Event.message true Category.error ("无法连接到蓝牙设备: ".data ++ e),
       Event.statusChanged false []]
  ∧ (bt_establish_connection true bst addr name (some e)).2.2 = false
  ∧ bt_establish_connection false bst addr name (some e) =
      (bst,
       [Event.message false Category.info
          "蓝牙功能在Windows上需要安装PyBluez库".data,
        Event.statusChanged false "蓝牙不可用".data],
       false) := by
  refine ⟨?_, ?_, ?_, ?_, ?_, ?_, ?_, ?_, ?_⟩ <;>
    simp [esp_establish_connection, bt_establish_connection, h1, h2]

/-- Claim C4, witness: the ESP8266 failure path at concrete inputs. -/
theorem connect_failure_event_shape_witness :
    (esp_establish_connection espInit "10.0.0.9".data 80
      (some "timed out".data)).1.is_connected = false :=
  (connect_failure_event_shape espInit btInit "10.0.0.9".data []
    [] "timed out".data 80 rfl rfl).1

/-- Claim C5, counterexample: the line " A" (leading space, no carriage
return) is emitted as "A" — the code strips all surrounding whitespace via
`line.strip()`, not only a trailing carriage return. -/
theorem line_strip_not_only_cr :
    esp_receive_step espConn [] (RecvResult.data [32, 65, 10]) =
      ([Event.message true Category.device ['A']], [], LoopAct.cont)
  ∧ (['A'] : List Char) ≠ [' ', 'A'] := by
  decide

/-- Claim C5 (amended): each framed line is emitted with all leading and
trailing whitespace stripped (which in particular strips a trailing
carriage return); a line empty after stripping produces no event but is
still consumed from the buffer; receiving "A\r" then "\nB\n" across two
reads yields exactly the Device events "A" then "B" in order. -/
theorem framed_line_emission (st : EspState) (l : List Char)
    (hnl : '\n' ∉ l) (hascii : ∀ c ∈ l, c.toNat < 128) :
    esp_receive_step st [] (RecvResult.data (l.map Char.toNat ++ [10])) =
      ((if pyStrip l = [] then []
        else [Event.message true Category.device (pyStrip l)]),
       [], LoopAct.cont)
  ∧ esp_run_data st [] ["A\r".data.map Char.toNat, "\nB\n".data.map Char.toNat] =
      ([Event.message true Category.device ['A'],
        Event.message true Category.device ['B']], []) := by
  constructor
  · have hb : ∀ b ∈ l.map Char.toNat ++ [10], b < 128 := by
      intro b hbm
      rcases List.mem_append.mp hbm with h | h
      · rcases List.mem_map.mp h with ⟨c, hcm, hce⟩
        exact hce ▸ hascii c hcm
      · simp at h
        omega
    have hdec : decodeIgnore (l.map Char.toNat ++ [10]) = l ++ ['\n'] := by
      rw [decodeIgnore_ascii _ hb, List.map_append, map_ofNat_toNat]
      rfl
    have hne : l ++ ['\n'] ≠ [] := by simp
    have hdrain : drainLines ([] ++ (l ++ ['\n'])) = ([l], []) := by
      rw [List.nil_append, drainLines_eq_struct,
        show l ++ ['\n'] = l ++ '\n' :: [] from rfl, drainStruct_line l [] hnl]
      rfl
    rw [show esp_receive_step st [] (RecvResult.data (l.map Char.toNat ++ [10])) =
        ((drainLines ([] ++ decodeIgnore (l.map Char.toNat ++ [10]))).1.filterMap
           emitLine,
         (drainLines ([] ++ decodeIgnore (l.map Char.toNat ++ [10]))).2,
         LoopAct.cont) from by simp [esp_receive_step, hdec]]
    rw [hdec, hdrain]
    by_cases hp : pyStrip l = [] <;> simp [emitLine, hp]
  · have h1 := esp_run_data_frames st
      ["A\r".data.map Char.toNat, "\nB\n".data.map Char.toNat] [] (by simp)
      (by decide)
    rw [h1]
    decide

/-- Claim C5, witness at the line "A". -/
theorem framed_line_emission_witness :
    esp_run_data espConn []
      ["A\r".data.map Char.toNat, "\nB\n".data.map Char.toNat] =
      ([Event.message true Category.device ['A'],
        Event.message true Category.device ['B']], []) :=
  (framed_line_emission espConn ['A'] (by decide) (by decide)).2

/-- Claim C6, counterexample: the invalid byte 0xFF is dropped, not
replaced — decoding [0xFF, 'A'] yields "A" with no replacement character,
while the spec's replacement decoding would yield "� A"; moreover a
chunk consisting only of invalid bytes decodes to empty text and is
treated as EOF, breaking the receive loop. -/
theorem decode_ignore_not_replace :
    decodeIgnore [255, 65] = ['A']
  ∧ decodeReplaceSpec [255, 65] = [Char.ofNat 0xFFFD, 'A']
  ∧ decodeIgnore [255, 65] ≠ decodeReplaceSpec [255, 65]
  ∧ esp_receive_step espConn [] (RecvResult.data [255, 65, 10]) =
      ([Event.message true Category.device ['A']], [], LoopAct.cont)
  ∧ esp_receive_step espConn [] (RecvResult.data [255]) = ([], [], LoopAct.brk) := by
  decide

/-- Claim C6 (amended): decoding is total and never raises; invalid byte
sequences are dropped (`errors='ignore'`), and no decode error surfaces as
an event — a data chunk either decodes to empty text (and the loop then
breaks with no event, as on EOF) or the step emits only Device-category
message events and continues polling. -/
theorem decode_never_fails_loop (st : EspState) (buf : List Char)
    (bytes : List Nat) :
    (decodeIgnore bytes = [] →
      esp_receive_step st buf (RecvResult.data bytes) = ([], buf, LoopAct.brk))
  ∧ (decodeIgnore bytes ≠ [] →
      (esp_receive_step st buf (RecvResult.data bytes)).2.2 = LoopAct.cont
      ∧ ∀ ev ∈ (esp_receive_step st buf (RecvResult.data bytes)).1,
          ∃ t, ev = Event.message true Category.device t) := by
  constructor
  · intro h
    simp [esp_receive_step, h]
  · intro h
    have hstep : esp_receive_step st buf (RecvResult.data bytes) =
        ((drainLines (buf ++ decodeIgnore bytes)).1.filterMap emitLine,
         (drainLines (buf ++ decodeIgnore bytes)).2, LoopAct.cont) := by
      simp [esp_receive_step, h]
    rw [hstep]
    refine ⟨rfl, ?_⟩
    intro ev hev
    rcases List.mem_filterMap.mp hev with ⟨l, _, hfl⟩
    unfold emitLine at hfl
    by_cases hp : pyStrip l = []
    · simp [hp] at hfl
    · simp only [hp, if_neg, if_false] at hfl
      exact ⟨pyStrip l, (Option.some_inj.mp hfl).symm⟩

/-- Claim C6, witness at the chunk "A\n". -/
theorem decode_never_fails_loop_witness :
    (esp_receive_step espConn [] (RecvResult.data [65, 10])).2.2 = LoopAct.cont
  ∧ ∀ ev ∈ (esp_receive_step espConn [] (RecvResult.data [65, 10])).1,
      ∃ t, ev = Event.message true Category.device t :=
  (decode_never_fails_loop espConn [] [65, 10]).2 (by decide)

/-- Claim C7: while connected, `send_message` transmits the text with
exactly one trailing newline appended when missing (a text already ending
in a newline is transmitted unmodified), and on transport success emits
one Sent event with the trimmed text and returns success; in particular
"PING" and "PING\n" both transmit the bytes of "PING\n". -/
theorem send_newline_termination (est : EspState) (bst : BtState)
    (msg : List Char) (h1 : est.is_connected = true)
    (h2 : bst.is_connected = true) :
    esp_send_message est msg none =
      (est, [Event.message true Category.sent (pyStrip msg)], true,
       some (encodeUtf8 (pyAppendNl msg)))
  ∧ bt_send_message bst msg none =
      (bst, [Event.message true Category.sent (pyStrip msg)], true,
       some (encodeUtf8 (pyAppendNl msg)))
  ∧ (msg.getLast? = some '\n' → pyAppendNl msg = msg)
  ∧ (msg.getLast? ≠ some '\n' → pyAppendNl msg = msg ++ ['\n'])
  ∧ pyAppendNl "PING".data = "PING\n".data
  ∧ pyAppendNl "PING\n".data = "PING\n".data
  ∧ encodeUtf8 "PING\n".data = "PING\n".data.map Char.toNat := by
  refine ⟨?_, ?_, ?_, ?_, by decide, by decide, by decide⟩
  · simp [esp_send_message, h1, pyStrip_pyAppendNl]
  · simp [bt_send_message, h2, pyStrip_pyAppendNl]
  · intro h
    simp [pyAppendNl, h]
  · intro h
    simp [pyAppendNl, h]

/-- Claim C7, witness at the message "PING". -/
theorem send_newline_termination_witness :
    esp_send_message espConn "PING".data none =
      (espConn, [Event.message true Category.sent (pyStrip "PING".data)],
       true, some (encodeUtf8 (pyAppendNl "PING".data))) :=
  (send_newline_termination espConn btConn "PING".data rfl rfl).1

/-- Claim C8: `DeviceManager.send_message` routes to the ESP8266 (network)
controller whenever it is connected — even if both are connected —
otherwise to the Bluetooth controller when connected, and fails when
neither is; and with the network controller closed while Bluetooth stays
connected, the recomputed current-device view reports the Bluetooth
device. -/
theorem dm_send_routing (dm : DMState) (msg : List Char)
    (eexc bexc : Option (List Char)) :
    (dm.esp.is_connected = true →
      dm_send_message dm msg eexc bexc =
        ({ dm with esp := (esp_send_message dm.esp msg eexc).1 },
         (esp_send_message dm.esp msg eexc).2.1,
         (esp_send_message dm.esp msg eexc).2.2.1,
         (esp_send_message dm.esp msg eexc).2.2.2, none))
  ∧ (dm.esp.is_connected = false → dm.bt.is_connected = true →
      dm_send_message dm msg eexc bexc =
        ({ dm with bt := (bt_send_message dm.bt msg bexc).1 },
         (bt_send_message dm.bt msg bexc).2.1,
         (bt_send_message dm.bt msg bexc).2.2.1,
         none, (bt_send_message dm.bt msg bexc).2.2.2))
  ∧ (dm.esp.is_connected = false → dm.bt.is_connected = false →
      dm_send_message dm msg eexc bexc = (dm, [], false, none, none))
  ∧ (dm.bt.is_connected = true →
      dm_get_current_device_info
        { esp := (esp_close_connection dm.esp).1, bt := dm.bt } =
        { ty := "Bluetooth".data, name := "蓝牙: ".data ++ dm.bt.device_name,
          connected := true }) := by
  refine ⟨?_, ?_, ?_, ?_⟩
  · intro h
    simp [dm_send_message, h]
  · intro h1 h2
    simp [dm_send_message, h1, h2]
  · intro h1 h2
    simp [dm_send_message, h1, h2]
  · intro h
    cases hs : dm.esp.socket <;>
      simp [dm_get_current_device_info, esp_close_connection, hs, h]

/-- Claim C8, witness with both controllers connected: network wins. -/
theorem dm_send_routing_witness :
    dm_send_message { esp := espConn, bt := btConn } "PING".data none none =
      ({ esp := (esp_send_message espConn "PING".data none).1, bt := btConn },
       (esp_send_message espConn "PING".data none).2.1,
       (esp_send_message espConn "PING".data none).2.2.1,
       (esp_send_message espConn "PING".data none).2.2.2, none) :=
  (dm_send_routing { esp := espConn, bt := btConn } "PING".data none none).1 rfl

/-- Claim C9: the socket handle is non-null iff the controller is
connected: the invariant holds initially and is preserved by every public
operation (connect attempted from Disconnected, close, send, and
receive-loop termination), for both controllers. -/
theorem socket_iff_connected_invariant :
    espInv espInit
  ∧ btInv btInit
  ∧ (∀ (op : EspOp) (st : EspState),
      esp_valid op st → espInv st → espInv (esp_apply op st))
  ∧ (∀ (op : BtOp) (st : BtState),
      bt_valid op st → btInv st → btInv (bt_apply op st)) := by
  refine ⟨rfl, rfl, ?_, ?_⟩
  · intro op st hv hi
    cases op with
    | establish ip port exc =>
      cases exc with
      | none => simp [esp_apply, esp_establish_connection, espInv]
      | some e =>
        have hv' : st.is_connected = false := hv
        simp [esp_apply, esp_establish_connection, espInv, hv']
    | close =>
      cases h : st.socket <;> simp [esp_apply, esp_close_connection, espInv, h]
    | send m exc =>
      by_cases hc : st.is_connected = false
      · simpa [esp_apply, esp_send_message, hc] using hi
      · cases exc with
        | none => simpa [esp_apply, esp_send_message, hc] using hi
        | some e =>
          cases h : st.socket <;>
            simp [esp_apply, esp_send_message, esp_close_connection, hc, h,
              espInv]
    | loopExit =>
      by_cases hc : st.is_connected
      · cases h : st.socket <;>
          simp [esp_apply, esp_receive_loop_exit, esp_close_connection, hc, h,
            espInv]
      · simpa [esp_apply, esp_receive_loop_exit, hc] using hi
  · intro op st hv hi
    cases op with
    | establish avail addr name exc =>
      cases avail with
      | false => simpa [bt_apply, bt_establish_connection, btInv] using hi
      | true =>
        cases exc with
        | none => simp [bt_apply, bt_establish_connection, btInv]
        | some e =>
          have hv' : st.is_connected = false := hv
          simp [bt_apply, bt_establish_connection, btInv, hv']
    | close =>
      cases h : st.socket <;> simp [bt_apply, bt_close_connection, btInv, h]
    | send m exc =>
      by_cases hc : st.is_connected = false
      · simpa [bt_apply, bt_send_message, hc] using hi
      · cases exc with
        | none => simpa [bt_apply, bt_send_message, hc] using hi
        | some e =>
          cases h : st.socket <;>
            simp [bt_apply, bt_send_message, bt_close_connection, hc, h, btInv]
    | loopExit =>
      by_cases hc : st.is_connected
      · cases h : st.socket <;>
          simp [bt_apply, bt_receive_loop_exit, bt_close_connection, hc, h,
            btInv]
      · simpa [bt_apply, bt_receive_loop_exit, hc] using hi

/-- Claim C9, witness: preservation across a close from a connected
state. -/
theorem socket_iff_connected_invariant_witness :
    espInv (esp_apply EspOp.close espConn) :=
  socket_iff_connected_invariant.2.2.1 EspOp.close espConn trivial rfl

/-- Claim C10, counterexample: with Bluetooth unavailable, a connect
attempt to address "Y" leaves the previously recorded address "X" in
place — the endpoint fields are not overwritten on that attempt, so
`get_connection_info` does not report the most recently attempted
endpoint. -/
theorem bt_unavailable_endpoint_unchanged :
    (bt_establish_connection false
        { socket := none, is_connected := false,
          device_address := "X".data, device_name := "X".data }
        "Y".data "Y".data none).1.device_address = "X".data
  ∧ "X".data ≠ "Y".data
  ∧ (bt_get_connection_info
        (bt_establish_connection false
          { socket := none, is_connected := false,
            device_address := "X".data, device_name := "X".data }
          "Y".data "Y".data none).1).device_address = "X".data := by
  decide

/-- Claim C10 (amended): every connect attempt that passes the Bluetooth
availability check overwrites the endpoint fields at its start (the
ESP8266 attempt always; the Bluetooth attempt records the address and the
name-or-address), a capability-unavailable Bluetooth attempt leaves all
fields untouched, failed connects and closes never clear the endpoint
fields, and `get_connection_info` reports them even when disconnected. -/
theorem endpoint_fields_retention (est : EspState) (bst : BtState)
    (ip addr name : List Char) (port : Nat) (exc : Option (List Char)) :
    (esp_establish_connection est ip port exc).1.ip_address = ip
  ∧ (esp_establish_connection est ip port exc).1.port = port
  ∧ (esp_close_connection est).1.ip_address = est.ip_address
  ∧ (esp_close_connection est).1.port = est.port
  ∧ (bt_establish_connection true bst addr name exc).1.device_address = addr
  ∧ (bt_establish_connection true bst addr name exc).1.device_name =
      (if name = [] then addr else name)
  ∧ (bt_establish_connection false bst addr name exc).1 = bst
  ∧ (bt_close_connection bst).1.device_address = bst.device_address
  ∧ (bt_close_connection bst).1.device_name = bst.device_name
  ∧ esp_get_connection_info (esp_close_connection est).1 =
      { connected := false, device_name := est.device_name,
        ip_address := est.ip_address, port := est.port }
  ∧ bt_get_connection_info (bt_close_connection bst).1 =
      { connected := false, device_name := bst.device_name,
        device_address := bst.device_address } := by
  cases exc <;> cases h1 : est.socket <;> cases h2 : bst.socket <;>
    simp [esp_establish_connection, bt_establish_connection,
      esp_close_connection, bt_close_connection, esp_get_connection_info,
      bt_get_connection_info, h1, h2]

end Waist
